import Mathlib

/-!
# Alignment-debt lifecycle: shallow embedding and verification

This file embeds the debt/decay/gating core of the repository
(`src/debt_clearing.py`, `src/pipeline/settle_alignment_debt.py`,
`src/pipeline/debt_aging.py`, `src/core/decay.py`) as executable Lean
definitions and proves or refutes the frozen claims about it.

Modelling conventions:
- YAML/JSON dict payloads become structures with `Option` fields; a field
  holding `none` models a missing key (or, where noted, a non-numeric value).
- Python floats are modelled as rationals; `math.pow(0.5, _)` is abstracted
  as an explicit function parameter where it occurs.
- `datetime` values are modelled as integer microseconds since the epoch;
  the two timestamp parsers of the code are modelled as executable parsers
  over the same formats, where parse failure (`none`) models the raised
  `ValueError` for `strptime`-based parsing.
- In-place mutation of the loaded ledger followed by a save becomes explicit
  state passing: each operation takes the ledger and returns the new one.
-/

namespace AlignmentDebt

/-! ## Python string helpers -/

/-- Contiguous-substring test on character lists. -/
def hasSubseq (needle : List Char) : List Char → Bool
  | [] => needle.isEmpty
  | c :: rest => needle.isPrefixOf (c :: rest) || hasSubseq needle rest

/-- Python substring test `needle in haystack` on strings. -/
def strContains (needle haystack : String) : Bool :=
  hasSubseq needle.toList haystack.toList

/-- Python `repr` of a string (as it appears inside `str(list_of_strings)`). -/
def pyRepr (s : String) : String := "'" ++ s ++ "'"

/-- Python `str` of a list of strings, e.g. `"['a', 'b']"`. -/
def pyReprList (l : List String) : String :=
  "[" ++ String.intercalate ", " (l.map pyRepr) ++ "]"

/-- Model of Python `list(set(xs))` for lists of strings.  CPython's set
iteration order is unspecified; we fix a canonical duplicate-free order
(`List.dedup`).  All verified properties depend only on the resulting
membership and duplicate-freeness, not on the order. -/
def pySetList (l : List String) : List String := l.dedup

/-! ## Time model

`datetime` values are integer microseconds since 1970-01-01T00:00:00.
`timedelta.days` is floor division of the difference by one day. -/

def microsPerDay : ℤ := 86400000000

def digitsToNat (cs : List Char) : Nat :=
  cs.foldl (fun a c => 10 * a + (c.toNat - 48)) 0

/-- Consume exactly `n` decimal digits. -/
def takeDigits (n : Nat) (cs : List Char) : Option (Nat × List Char) :=
  let pre := cs.take n
  if pre.length = n ∧ pre.all Char.isDigit then
    some (digitsToNat pre, cs.drop n)
  else none

def expectChar (c : Char) : List Char → Option (List Char)
  | [] => none
  | x :: rest => if x = c then some rest else none

def isLeap (y : Nat) : Bool :=
  y % 4 = 0 && (y % 100 != 0 || y % 400 = 0)

def daysInMonth (y m : Nat) : Nat :=
  if m = 2 then (if isLeap y then 29 else 28)
  else if m = 4 ∨ m = 6 ∨ m = 9 ∨ m = 11 then 30
  else 31

/-- Days since 1970-01-01 of a civil date (standard civil-from-days
algorithm, with floor division). -/
def daysFromCivil (y m d : Nat) : ℤ :=
  let y' : ℤ := if m ≤ 2 then (y : ℤ) - 1 else (y : ℤ)
  let era : ℤ := Int.fdiv y' 400
  let yoe : ℤ := y' - era * 400
  let mp : ℤ := if m > 2 then (m : ℤ) - 3 else (m : ℤ) + 9
  let doy : ℤ := Int.fdiv (153 * mp + 2) 5 + (d : ℤ) - 1
  let doe : ℤ := yoe * 365 + Int.fdiv yoe 4 - Int.fdiv yoe 100 + doy
  era * 146097 + doe - 719468

def toEpochMicros (y m d hh mm ss micros : Nat) : ℤ :=
  (daysFromCivil y m d * 86400 + (hh : ℤ) * 3600 + (mm : ℤ) * 60 + (ss : ℤ)) * 1000000
    + (micros : ℤ)

/-- `"YYYY-MM-DD"` with `strptime`-style validation of month and day. -/
def parseDatePart (cs : List Char) : Option ((Nat × Nat × Nat) × List Char) := do
  let (y, cs) ← takeDigits 4 cs
  let cs ← expectChar '-' cs
  let (m, cs) ← takeDigits 2 cs
  let cs ← expectChar '-' cs
  let (d, cs) ← takeDigits 2 cs
  if 1 ≤ m ∧ m ≤ 12 ∧ 1 ≤ d ∧ d ≤ daysInMonth y m then some ((y, m, d), cs) else none

/-- `"HH:MM:SS"` with range validation. -/
def parseTimePart (cs : List Char) : Option ((Nat × Nat × Nat) × List Char) := do
  let (hh, cs) ← takeDigits 2 cs
  let cs ← expectChar ':' cs
  let (mm, cs) ← takeDigits 2 cs
  let cs ← expectChar ':' cs
  let (ss, cs) ← takeDigits 2 cs
  if hh ≤ 23 ∧ mm ≤ 59 ∧ ss ≤ 59 then some ((hh, mm, ss), cs) else none

/-- `%f`: one to six fractional-second digits, scaled to microseconds. -/
def parseFrac (cs : List Char) : Option (Nat × List Char) :=
  let ds := cs.takeWhile Char.isDigit
  if 1 ≤ ds.length ∧ ds.length ≤ 6 then
    some (digitsToNat ds * 10 ^ (6 - ds.length), cs.drop ds.length)
  else none

/-- `ts.rstrip("Z")`: drop all trailing `Z` characters. -/
def rstripZ (s : String) : List Char :=
  (s.toList.reverse.dropWhile (fun c => c = 'Z')).reverse

/-- Format `"%Y-%m-%dT%H:%M:%S"`, which must consume the whole input. -/
def parseFmtDateTime (cs : List Char) : Option ℤ := do
  let ((y, m, d), cs) ← parseDatePart cs
  let cs ← expectChar 'T' cs
  let ((hh, mm, ss), cs) ← parseTimePart cs
  if cs = [] then some (toEpochMicros y m d hh mm ss 0) else none

/-- Format `"%Y-%m-%dT%H:%M:%S.%f"`. -/
def parseFmtDateTimeFrac (cs : List Char) : Option ℤ := do
  let ((y, m, d), cs) ← parseDatePart cs
  let cs ← expectChar 'T' cs
  let ((hh, mm, ss), cs) ← parseTimePart cs
  let cs ← expectChar '.' cs
  let (micros, cs) ← parseFrac cs
  if cs = [] then some (toEpochMicros y m d hh mm ss micros) else none

/-- Format `"%Y-%m-%d"`. -/
def parseFmtDate (cs : List Char) : Option ℤ := do
  let ((y, m, d), cs) ← parseDatePart cs
  if cs = [] then some (toEpochMicros y m d 0 0 0 0) else none

/-- `debt_aging.parse_timestamp`: strip trailing `Z`s, then try the three
`strptime` formats in order.  A `none` result models the raised
`ValueError("Cannot parse timestamp: ...")`. -/
def parse_timestamp (ts : String) : Option ℤ :=
  let cs := rstripZ ts
  (parseFmtDateTime cs) <|> (parseFmtDateTimeFrac cs) <|> (parseFmtDate cs)

/-- `debt_aging.calculate_age_days`: `(now - created).days`; propagates the
parse failure of `parse_timestamp` (the exception is not caught). -/
def calculate_age_days (created_at : String) (now : ℤ) : Option ℤ :=
  (parse_timestamp created_at).map (fun c => Int.fdiv (now - c) microsPerDay)

/-- `s.replace('Z', '+00:00')`. -/
def replaceZ (s : String) : List Char :=
  s.toList.foldr
    (fun c acc => if c = 'Z' then '+' :: '0' :: '0' :: ':' :: '0' :: '0' :: acc else c :: acc)
    []

/-- UTC-offset suffix `±HH:MM`, returned in microseconds. -/
def parseTZ (cs : List Char) : Option (ℤ × List Char) :=
  match cs with
  | '+' :: rest => do
    let (hh, rest) ← takeDigits 2 rest
    let rest ← expectChar ':' rest
    let (mm, rest) ← takeDigits 2 rest
    if hh ≤ 23 ∧ mm ≤ 59 then
      some (((hh : ℤ) * 3600 + (mm : ℤ) * 60) * 1000000, rest)
    else none
  | '-' :: rest => do
    let (hh, rest) ← takeDigits 2 rest
    let rest ← expectChar ':' rest
    let (mm, rest) ← takeDigits 2 rest
    if hh ≤ 23 ∧ mm ≤ 59 then
      some (-(((hh : ℤ) * 3600 + (mm : ℤ) * 60) * 1000000), rest)
    else none
  | _ => none

/-- Model of `datetime.fromisoformat` on the subset of ISO-8601 the decay
code feeds it: `YYYY-MM-DD[THH:MM:SS[.ffffff]][±HH:MM]`.  The result is
normalised to UTC microseconds; `none` models the raised `ValueError`. -/
def fromisoformat (s : List Char) : Option ℤ := do
  let ((y, m, d), cs) ← parseDatePart s
  match cs with
  | [] => some (toEpochMicros y m d 0 0 0 0)
  | 'T' :: cs1 => do
    let ((hh, mm, ss), cs2) ← parseTimePart cs1
    let (micros, cs3) ←
      match cs2 with
      | '.' :: cs2' => parseFrac cs2'
      | _ => some ((0 : Nat), cs2)
    match cs3 with
    | [] => some (toEpochMicros y m d hh mm ss micros)
    | _ => do
      let (off, cs4) ← parseTZ cs3
      if cs4 = [] then some (toEpochMicros y m d hh mm ss micros - off) else none
  | _ => none

/-! ## DecayModel (`src/core/decay.py`) -/

/-- `RegressionTest` dataclass (fields used by `compute_relevance`). -/
structure RegressionTest where
  test_id : String
  created_at : String
  source : String
  last_triggered : Option String := none
  trigger_count : Nat := 0
  severity : String := "medium"
deriving DecidableEq

/-- `if not test.last_triggered` — falsy means missing or empty string. -/
def referenceDate (t : RegressionTest) : String :=
  match t.last_triggered with
  | none => t.created_at
  | some s => if s = "" then t.created_at else s

/-- The `try/except` block of `compute_relevance`: parse the reference date
and take `(now - ref).days`; on any parse failure fall back to `0`. -/
def daysElapsedOf (t : RegressionTest) (now : ℤ) : ℤ :=
  match fromisoformat (replaceZ (referenceDate t)) with
  | some r => Int.fdiv (now - r) microsPerDay
  | none => 0

def severityMult (s : String) : ℚ :=
  if s = "critical" then 3/2
  else if s = "high" then 6/5
  else if s = "medium" then 1
  else if s = "low" then 4/5
  else 1

def sourceMult (s : String) : ℚ :=
  if s = "incident" then 13/10
  else if s = "near_miss" then 6/5
  else if s = "red_team" then 1
  else if s = "manual" then 9/10
  else 1

def triggerBonus (n : Nat) : ℚ := min ((n : ℚ) / 10) (3/10)

/-- `RegressionDecayManager.compute_relevance`.  `halfPow` abstracts the
float-valued `math.pow(0.5, _)`; everything else is the code's formula:
`min(base * severity_mult * source_mult + trigger_bonus, 1.0)`. -/
def compute_relevance (halfPow : ℚ → ℚ) (halfLife : ℚ) (t : RegressionTest) (now : ℤ) : ℚ :=
  min (halfPow ((daysElapsedOf t now : ℚ) / halfLife) * severityMult t.severity
        * sourceMult t.source + triggerBonus t.trigger_count) 1

/-! ## Ledger data model (`src/debt_clearing.py`)

Ledger entries are YAML dicts; `Option` fields model possibly-missing keys.
`debt_amount = none` models a missing key or a non-numeric value (the code's
`isinstance(..., (int, float))` guard treats both the same way). -/

/-- The `risk_acceptance` dict written by `mark_accepted`. -/
structure RiskAcceptance where
  approved_by : String
  approved_at : String
  expires : String
  conditions : List String
deriving DecidableEq

/-- The `planned_resolution` dict. -/
structure PlannedResolution where
  owner : Option String := none
  eta : Option String := none
deriving DecidableEq

/-- The polymorphic `evidence` value: a list of test ids, a dict with a
`regression_tests` list (plus optional `source_incident` /
`mitigation_verified_at` keys), or missing. -/
inductive Evidence where
  | missing : Evidence
  | list : List String → Evidence
  | dict : List String → Option String → Option String → Evidence
deriving DecidableEq

def Evidence.tests : Evidence → List String
  | .missing => []
  | .list ts => ts
  | .dict ts _ _ => ts

/-- One ledger entry. -/
structure DebtEntry where
  debt_id : Option String := none
  status : Option String := none
  principle : Option String := none
  mechanism_gap : Option String := none
  description : Option String := none
  violation_type : Option String := none
  introduced_by_release : Option String := none
  severity : Option String := none
  created_at : Option String := none
  debt_amount : Option ℚ := none
  blocks_release : Option Bool := none
  mitigation_status : Option String := none
  evidence : Evidence := .missing
  mitigated_at : Option String := none
  mitigated_by : Option String := none
  mitigated_by_incident : Option String := none
  verified_in_run : Option String := none
  block_reason : Option String := none
  risk_acceptance : Option RiskAcceptance := none
  planned_resolution : Option PlannedResolution := none
deriving DecidableEq

/-- The `summary` dict. -/
structure Summary where
  total_active_debt : ℚ
  debt_status : String
  active_entries : Nat
  mitigated_entries : Nat
  last_updated : String
deriving DecidableEq

/-- The whole ledger document: its `ledger` list and optional `summary`. -/
structure Ledger where
  entries : List DebtEntry := []
  summary : Option Summary := none
deriving DecidableEq

/-- `e.get("mitigation_status") not in ("mitigated", "accepted")`. -/
def isActive (e : DebtEntry) : Bool :=
  !(e.mitigation_status == some "mitigated" || e.mitigation_status == some "accepted")

def isMitigated (e : DebtEntry) : Bool :=
  e.mitigation_status == some "mitigated"

/-- `e.get("debt_amount", 0.05) if isinstance(e.get("debt_amount"), (int, float)) else 0.05`. -/
def entryAmount (e : DebtEntry) : ℚ := e.debt_amount.getD (1/20)

/-- Sum of `debt_amount` over non-mitigated, non-accepted entries. -/
def activeSum (es : List DebtEntry) : ℚ :=
  ((es.filter isActive).map entryAmount).sum

/-- Python `round(x, 3)` (the claims only exercise it at 3-decimal values,
where the half-to-even detail of float rounding cannot matter). -/
def round3 (q : ℚ) : ℚ := ((round (q * 1000) : ℤ) : ℚ) / 1000

/-- The `BLOCK >= 0.25 / WARN >= 0.10 / OK` ladder of `_recalculate_summary`
(applied to the unrounded total, as in the code). -/
def debtStatusOf (t : ℚ) : String :=
  if t ≥ 1/4 then "BLOCK" else if t ≥ 1/10 then "WARN" else "OK"

/-- `DebtClearer._recalculate_summary`, with `ts` for `datetime.utcnow()`. -/
def recalculate_summary (l : Ledger) (ts : String) : Ledger :=
  let total := activeSum l.entries
  { l with
    summary := some
      { total_active_debt := round3 total
        debt_status := debtStatusOf total
        active_entries := (l.entries.filter isActive).length
        mitigated_entries := (l.entries.filter isMitigated).length
        last_updated := ts } }

/-! ### `DebtClearer.mark_mitigated` -/

/-- The incident-match test of `mark_mitigated`: substring match against
`debt_id`, else against `str(evidence.get("regression_tests", []))` for dict
evidence (a missing key defaults to the empty dict), else against
`str(evidence)` for list evidence. -/
def mmMatch (incident_id : String) (e : DebtEntry) : Bool :=
  if strContains incident_id (e.debt_id.getD "") then true
  else
    match e.evidence with
    | .dict ts _ _ => strContains incident_id (pyReprList ts)
    | .list ts => strContains incident_id (pyReprList ts)
    | .missing => strContains incident_id (pyReprList [])

/-- `match and entry.get("mitigation_status") != "mitigated"`. -/
def mmEligible (incident_id : String) (e : DebtEntry) : Bool :=
  mmMatch incident_id e && !(e.mitigation_status == some "mitigated")

/-- The evidence-union step: dict evidence gets `list(set(existing + new))`
and a `mitigation_verified_at` stamp; list evidence is normalised to a dict;
a missing `evidence` key is left untouched (neither `isinstance` matches). -/
def updateEvidence (ev : Evidence) (new : List String) (ts : String) : Evidence :=
  match ev with
  | .dict ex src _ => .dict (pySetList (ex ++ new)) src (some ts)
  | .list ex => .dict (pySetList (ex ++ new)) none (some ts)
  | .missing => .missing

/-- The in-place update applied to the matched entry. -/
def mitigateEntry (e : DebtEntry) (new : List String) (mitigated_by ts : String) : DebtEntry :=
  { e with
    mitigation_status := some "mitigated"
    mitigated_at := some ts
    mitigated_by := some mitigated_by
    blocks_release := some false
    evidence := updateEvidence e.evidence new ts }

/-- The entry loop of `mark_mitigated`: update the first eligible entry and
`break`; also return the updated entry. -/
def markFirst (incident_id : String) (new : List String) (mitigated_by ts : String) :
    List DebtEntry → List DebtEntry × Option DebtEntry
  | [] => ([], none)
  | e :: rest =>
    if mmEligible incident_id e then
      (mitigateEntry e new mitigated_by ts :: rest, some (mitigateEntry e new mitigated_by ts))
    else
      let (r, u) := markFirst incident_id new mitigated_by ts rest
      (e :: r, u)

/-- `DebtClearer.mark_mitigated`: if an entry was updated, recalculate the
summary and save; otherwise the ledger is left as loaded (nothing saved) and
an empty result is returned (`none`). -/
def mark_mitigated (l : Ledger) (incident_id : String) (evidence : List String)
    (mitigated_by ts : String) : Ledger × Option DebtEntry :=
  let r := markFirst incident_id evidence mitigated_by ts l.entries
  match r.2 with
  | some e => (recalculate_summary { l with entries := r.1 } ts, some e)
  | none => (l, none)

/-! ### `DebtClearer.mark_accepted` -/

def acceptEntry (e : DebtEntry) (approved_by ts expires : String)
    (conditions : List String) : DebtEntry :=
  { e with
    mitigation_status := some "accepted"
    blocks_release := some false
    risk_acceptance := some
      { approved_by := approved_by, approved_at := ts
        expires := expires, conditions := conditions } }

/-- The entry loop of `mark_accepted`: update the first entry whose
`debt_id` equals the argument and `break`. -/
def acceptFirst (debt_id approved_by ts expires : String) (conditions : List String) :
    List DebtEntry → List DebtEntry × Option DebtEntry
  | [] => ([], none)
  | e :: rest =>
    if e.debt_id == some debt_id then
      (acceptEntry e approved_by ts expires conditions :: rest,
        some (acceptEntry e approved_by ts expires conditions))
    else
      let (r, u) := acceptFirst debt_id approved_by ts expires conditions rest
      (e :: r, u)

/-- `DebtClearer.mark_accepted`. -/
def mark_accepted (l : Ledger) (debt_id approved_by expires : String)
    (conditions : List String) (ts : String) : Ledger × Option DebtEntry :=
  let r := acceptFirst debt_id approved_by ts expires conditions l.entries
  match r.2 with
  | some e => (recalculate_summary { l with entries := r.1 } ts, some e)
  | none => (l, none)

/-! ### `DebtClearer.create_debt_from_incident` -/

/-- `DebtClearer.create_debt_from_incident`; `dateStr` models
`utcnow().strftime("%Y%m%d")` and `ts` models the ISO timestamp. -/
def create_debt_from_incident (l : Ledger) (incident_id principle mechanism_gap
    severity release_id : String) (evidence : List String) (dateStr ts : String) :
    Ledger × DebtEntry :=
  let debt_id := "AD-" ++ dateStr ++ "-" ++ incident_id
  let amount : ℚ :=
    if severity = "critical" then 1/10 else if severity = "high" then 1/20 else 1/50
  let e : DebtEntry :=
    { debt_id := some debt_id
      status := some "active"
      created_at := some ts
      introduced_by_release := some release_id
      principle := some principle
      violation_type := some "incident_derived"
      mechanism_gap := some mechanism_gap
      description := some ("Gap identified from incident " ++ incident_id)
      severity := some severity
      debt_amount := some amount
      blocks_release := some (severity = "critical" || severity = "high")
      evidence := .dict evidence (some incident_id) none
      mitigation_status := some "open"
      planned_resolution := some { owner := some "Safety Engineering", eta := some "TBD" } }
  (recalculate_summary { l with entries := l.entries ++ [e] } ts, e)

/-! ## AgingEnforcer (`src/pipeline/debt_aging.py`) -/

inductive SLOStatus where
  | ok | warning | escalate | block
deriving DecidableEq

/-- The `.value` strings of the `SLOStatus` enum. -/
def SLOStatus.value : SLOStatus → String
  | .ok => "ok"
  | .warning => "warning"
  | .escalate => "escalate"
  | .block => "block"

/-- `AgingConfig` dataclass with its defaults. -/
structure AgingConfig where
  warning_days : ℤ := 14
  escalate_days : ℤ := 30
  block_days_critical : ℤ := 45
  block_days_high : ℤ := 60
  block_days_medium : ℤ := 90
deriving DecidableEq

/-- The severity dispatch at the top of `get_slo_status`. -/
def blockThreshold (severity : String) (c : AgingConfig) : ℤ :=
  if severity = "critical" then c.block_days_critical
  else if severity = "high" then c.block_days_high
  else c.block_days_medium

/-- `get_slo_status(age_days, severity, config)`. -/
def get_slo_status (age_days : ℤ) (severity : String) (c : AgingConfig) : SLOStatus × ℤ :=
  let bt := blockThreshold severity c
  if age_days ≥ bt then (.block, 0)
  else if age_days ≥ c.escalate_days then (.escalate, bt - age_days)
  else if age_days ≥ c.warning_days then (.warning, bt - age_days)
  else (.ok, bt - age_days)

/-- `DebtAgingEntry` dataclass. -/
structure DebtAgingEntry where
  debt_id : String
  principle : String
  severity : String
  created_at : String
  age_days : ℤ
  slo_status : String
  days_until_block : ℤ
  owner : Option String
  mitigation_status : String
deriving DecidableEq

/-- `debt.get("mitigation_status", "open") in ("mitigated", "accepted")`. -/
def isTerminalAging (e : DebtEntry) : Bool :=
  let m := e.mitigation_status.getD "open"
  m == "mitigated" || m == "accepted"

/-- The entry loop of `analyze_debt_aging`; `nowStr` models
`now.isoformat()`, the default for a missing `created_at`.  A `none` result
models the uncaught `ValueError` from `calculate_age_days`. -/
def analyzeEntries (c : AgingConfig) (now : ℤ) (nowStr : String) :
    List DebtEntry → Option (List DebtAgingEntry)
  | [] => some []
  | e :: rest =>
    if isTerminalAging e then analyzeEntries c now nowStr rest
    else
      match calculate_age_days (e.created_at.getD nowStr) now with
      | none => none
      | some age =>
        let sev := e.severity.getD "medium"
        let (st, dub) := get_slo_status age sev c
        let owner := match e.planned_resolution with
          | some p => p.owner
          | none => none
        (analyzeEntries c now nowStr rest).map
          (fun r =>
            { debt_id := e.debt_id.getD "unknown"
              principle := e.principle.getD "unknown"
              severity := sev
              created_at := e.created_at.getD nowStr
              age_days := age
              slo_status := st.value
              days_until_block := dub
              owner := owner
              mitigation_status := e.mitigation_status.getD "open" } :: r)

/-- `analyze_debt_aging(debt_ledger, config, now)`. -/
def analyze_debt_aging (l : Ledger) (c : AgingConfig) (now : ℤ) (nowStr : String) :
    Option (List DebtAgingEntry) :=
  analyzeEntries c now nowStr l.entries

/-- `not debt.get("blocks_release")`: only the value `True` is truthy. -/
def blocksTruthy (e : DebtEntry) : Bool := e.blocks_release == some true

/-- The update applied when enforcement blocks an entry. -/
def setBlocked (e : DebtEntry) (age : ℤ) : DebtEntry :=
  { e with
    blocks_release := some true
    block_reason := some ("SLO exceeded: " ++ toString age ++ " days without resolution") }

/-- The per-entry eligibility test of `enforce_aging_blocks`: non-terminal,
parseable age whose SLO status is BLOCK, and `blocks_release` not already
truthy. -/
def enfEligible (c : AgingConfig) (now : ℤ) (nowStr : String) (e : DebtEntry) : Bool :=
  if isTerminalAging e then false
  else
    match calculate_age_days (e.created_at.getD nowStr) now with
    | none => false
    | some age =>
      (get_slo_status age (e.severity.getD "medium") c).1 == SLOStatus.block
        && !blocksTruthy e

/-- The transformation `enforce_aging_blocks` applies to one entry (identity
on ineligible entries). -/
def enfTransform (c : AgingConfig) (now : ℤ) (nowStr : String) (e : DebtEntry) : DebtEntry :=
  if isTerminalAging e then e
  else
    match calculate_age_days (e.created_at.getD nowStr) now with
    | none => e
    | some age =>
      if (get_slo_status age (e.severity.getD "medium") c).1 == SLOStatus.block
          && !blocksTruthy e then
        setBlocked e age
      else e

/-- The entry loop of `enforce_aging_blocks`.  `none` models the uncaught
`ValueError` raised on an unparseable `created_at` of a non-terminal entry
(the run crashes before anything is saved). -/
def enforceEntries (c : AgingConfig) (now : ℤ) (nowStr : String) :
    List DebtEntry → Option (List DebtEntry × Nat)
  | [] => some ([], 0)
  | e :: rest =>
    if isTerminalAging e then
      (enforceEntries c now nowStr rest).map (fun p => (e :: p.1, p.2))
    else
      match calculate_age_days (e.created_at.getD nowStr) now with
      | none => none
      | some age =>
        if (get_slo_status age (e.severity.getD "medium") c).1 == SLOStatus.block
            && !blocksTruthy e then
          (enforceEntries c now nowStr rest).map
            (fun p => (setBlocked e age :: p.1, p.2 + 1))
        else
          (enforceEntries c now nowStr rest).map (fun p => (e :: p.1, p.2))

/-- `enforce_aging_blocks(debt_ledger, config)`, with `now`/`nowStr` for
`datetime.utcnow()` and its isoformat. -/
def enforce_aging_blocks (l : Ledger) (c : AgingConfig) (now : ℤ) (nowStr : String) :
    Option (Ledger × Nat) :=
  (enforceEntries c now nowStr l.entries).map
    (fun p => ({ l with entries := p.1 }, p.2))

/-- The exit-code computation of `debt_aging.main`: analyze, return 0 on an
empty analysis, 2 if any entry has SLO status BLOCK, 1 if the violation list
(BLOCK or ESCALATE) is non-empty, else 0.  `none` models a crash of the
analysis on an unparseable timestamp. -/
def mainExitCode (l : Ledger) (c : AgingConfig) (now : ℤ) (nowStr : String) : Option Nat :=
  (analyze_debt_aging l c now nowStr).map
    (fun entries =>
      if entries.isEmpty then 0
      else if entries.any (fun e => e.slo_status == "block") then 2
      else if entries.any (fun e => e.slo_status == "block" || e.slo_status == "escalate")
        then 1
      else 0)

/-! ## SettlementReconciler (`src/pipeline/settle_alignment_debt.py`) -/

/-- One element of `verified_mitigations` (the `principle` key is accessed
with `v["principle"]`, so it is required; `status` with `v.get("status")`). -/
structure VerifiedMitigation where
  principle : String
  status : Option String := none
deriving DecidableEq

/-- The replay-verification input document. -/
structure Replay where
  incident_id : Option String := none
  verification_run_id : Option String := none
  verified_mitigations : List VerifiedMitigation := []
deriving DecidableEq

/-- `get_mitigated_principles`: the set of principles with `status ==
"pass"` (as a duplicate-free list, see `pySetList`). -/
def get_mitigated_principles (ms : List VerifiedMitigation) : List String :=
  pySetList ((ms.filter (fun v => v.status == some "pass")).map (fun v => v.principle))

/-- `debt.get("principle") in mitigated_principles` (a missing key is `None`,
which is never in a set of strings). -/
def principleMitigated (mitigated : List String) (e : DebtEntry) : Bool :=
  match e.principle with
  | some p => mitigated.contains p
  | none => false

/-- The per-entry update of `update_debt_ledger`. -/
def settleEntry (e : DebtEntry) (incident_id run_id ts : String) : DebtEntry :=
  { e with
    mitigation_status := some "mitigated"
    mitigated_by_incident := some incident_id
    verified_in_run := some run_id
    mitigated_at := some ts
    blocks_release := some false }

/-- Whether `update_debt_ledger` transitions an entry: principle in the
mitigated set and `mitigation_status == "open"`. -/
def settleEligible (mitigated : List String) (e : DebtEntry) : Bool :=
  principleMitigated mitigated e && e.mitigation_status == some "open"

/-- `update_debt_ledger`: transition matching open entries, then — only if a
`summary` key is present — update its `active_entries`, `mitigated_entries`
and `last_updated` fields (`total_active_debt` is not touched). -/
def update_debt_ledger (l : Ledger) (mitigated : List String)
    (incident_id run_id ts : String) : Ledger × Nat :=
  let entries' := l.entries.map
    (fun e => if settleEligible mitigated e then settleEntry e incident_id run_id ts else e)
  let updated := l.entries.countP (fun e => settleEligible mitigated e)
  let l' : Ledger :=
    match l.summary with
    | none => { l with entries := entries' }
    | some s =>
      { entries := entries'
        summary := some
          { s with
            active_entries := (entries'.filter isActive).length
            mitigated_entries := (entries'.filter isMitigated).length
            last_updated := ts } }
  (l', updated)

/-- A policy exception record (only its `principle` key is read). -/
structure PolicyException where
  principle : Option String := none
deriving DecidableEq

/-- An `audit_log` record appended by `update_policy_exceptions`. -/
structure AuditRecord where
  action : String
  count : Nat
  principles : List String
  timestamp : String
deriving DecidableEq

/-- The policy-exception store document. -/
structure ExcStore where
  exceptions : List PolicyException := []
  audit_log : List AuditRecord := []
deriving DecidableEq

def excMitigated (mitigated : List String) (e : PolicyException) : Bool :=
  match e.principle with
  | some p => mitigated.contains p
  | none => false

/-- `update_policy_exceptions`: drop exceptions for mitigated principles and,
if any were dropped, append one audit record. -/
def update_policy_exceptions (st : ExcStore) (mitigated : List String) (ts : String) :
    ExcStore × Nat :=
  let before := st.exceptions.length
  let kept := st.exceptions.filter (fun e => !(excMitigated mitigated e))
  let removed := before - kept.length
  if kept.length < before then
    ({ exceptions := kept
       audit_log := st.audit_log ++
         [{ action := "exceptions_removed", count := removed
            principles := mitigated, timestamp := ts }] }, removed)
  else
    ({ st with exceptions := kept }, removed)

/-- The success dict returned by `settle_debt` (its fixed keys beside the
`"status": "success"` marker; note there is no field recording per-store
commit state). -/
structure SettleResult where
  incident_id : Option String
  verification_run_id : Option String
  mitigated_principles : List String
  debts_updated : Nat
  exceptions_removed : Nat
  dry_run : Bool
deriving DecidableEq

/-- The two persisted stores a settlement writes. -/
inductive StoreId where
  | debtStore | excStore
deriving DecidableEq

/-- What a call to `settle_debt` does at its caller: return the no-action
dict, return the success dict, or let an I/O exception from one of the two
`save_yaml` calls propagate (the exception is the underlying file error of
the failing write; `settle_debt` itself catches nothing and adds nothing). -/
inductive SettleOutcome where
  | noAction (message : String)
  | success (r : SettleResult)
  | raised (failing : StoreId)
deriving DecidableEq

/-- `settle_debt`, with the two `save_yaml` effects made explicit:
`debtWriteOk` / `excWriteOk` say whether each write would succeed, and the
two `Option` components of the result are the contents committed to each
store (`none` = the store was not written). -/
def settle_debt (replay : Replay) (debt : Ledger) (exc : ExcStore) (dry_run : Bool)
    (ts : String) (debtWriteOk excWriteOk : Bool) :
    SettleOutcome × Option Ledger × Option ExcStore :=
  let mitigated := get_mitigated_principles replay.verified_mitigations
  if mitigated.isEmpty then
    (.noAction "No verified mitigations found in replay results", none, none)
  else
    let du :=
      update_debt_ledger debt mitigated (replay.incident_id.getD "unknown")
        (replay.verification_run_id.getD "unknown") ts
    let eu := update_policy_exceptions exc mitigated ts
    let res : SettleResult :=
      { incident_id := replay.incident_id
        verification_run_id := replay.verification_run_id
        mitigated_principles := mitigated
        debts_updated := du.2
        exceptions_removed := eu.2
        dry_run := dry_run }
    if dry_run then (.success res, none, none)
    else if !debtWriteOk then (.raised .debtStore, none, none)
    else if !excWriteOk then (.raised .excStore, some du.1, none)
    else (.success res, some du.1, some eu.1)

/-- Modelled from the spec: an outcome "reports the partial failure
explicitly (distinguishing which store committed)" only if the operation
returns a settlement result that states partial failure.  The code returns
exactly two result shapes — the no-action dict (which reports that nothing
was attempted) and the success dict (which asserts full success and carries
no per-store commit field, see `SettleResult`) — and otherwise propagates
the raw I/O exception of the failing `save_yaml` call, returning no result
at all.  None of the three is an explicit partial-failure report. -/
def reportsPartialFailureExplicitly : SettleOutcome → Bool
  | .noAction _ => false
  | .success _ => false
  | .raised _ => false

/-- The property claim C2 asserts of one settlement run: both writes took
effect, or the outcome is an explicit partial-failure report. -/
def bothOrReported (run : SettleOutcome × Option Ledger × Option ExcStore) : Prop :=
  (run.2.1.isSome = true ∧ run.2.2.isSome = true)
    ∨ reportsPartialFailureExplicitly run.1 = true

/-! ## Invariants -/

/-- The terminal-status/blocking invariant of the spec: an entry that is
`mitigated` or `accepted` does not block release.  "blocks_release is
false" is modelled as "not truthy", matching how every consumer reads the
field (`entry.get("blocks_release", False)`). -/
def EntryInv (e : DebtEntry) : Prop :=
  (e.mitigation_status = some "mitigated" ∨ e.mitigation_status = some "accepted") →
    e.blocks_release ≠ some true

instance (e : DebtEntry) : Decidable (EntryInv e) := by
  unfold EntryInv; infer_instance

/-- The invariant over a whole ledger. -/
def LedgerInv (l : Ledger) : Prop := ∀ e ∈ l.entries, EntryInv e

instance (l : Ledger) : Decidable (LedgerInv l) := by
  unfold LedgerInv; infer_instance

/-- The summary-consistency property of claim C1 (as the code computes it):
a summary is present, its `total_active_debt` is the active-entry sum
rounded to three decimals, its entry counts match, and it was stamped by
this mutation. -/
def SummaryConsistent (l : Ledger) (ts : String) : Prop :=
  l.summary = some
    { total_active_debt := round3 (activeSum l.entries)
      debt_status := debtStatusOf (activeSum l.entries)
      active_entries := (l.entries.filter isActive).length
      mitigated_entries := (l.entries.filter isMitigated).length
      last_updated := ts }

/-! ## Concrete fixtures used by witnesses and counterexamples -/

/-- An open high-severity entry for principle C3 (as `create_debt_from_incident`
would have produced it one day, with `blocks_release` still set). -/
def exEntryOpenC3 : DebtEntry :=
  { debt_id := some "AD-20250101-INC_1"
    principle := some "C3"
    mechanism_gap := some "gap"
    severity := some "high"
    created_at := some "2025-01-01"
    debt_amount := some (1/20)
    blocks_release := some true
    mitigation_status := some "open"
    evidence := .dict ["REG-1"] (some "INC_1") none }

/-- A summary consistent with `exEntryOpenC3` being the only (active) entry. -/
def exSummaryC1 : Summary :=
  { total_active_debt := 1/20, debt_status := "OK"
    active_entries := 1, mitigated_entries := 0, last_updated := "t0" }

def exLedgerC1 : Ledger := { entries := [exEntryOpenC3], summary := some exSummaryC1 }

/-- A replay result whose only verified mitigation passes. -/
def exReplayPass : Replay :=
  { incident_id := some "INC_1", verification_run_id := some "RUN_1"
    verified_mitigations := [{ principle := "C3", status := some "pass" }] }

/-- A replay result whose only verified mitigation failed. -/
def exReplayFail : Replay :=
  { incident_id := some "INC_1", verification_run_id := some "RUN_1"
    verified_mitigations := [{ principle := "C3", status := some "fail" }] }

def exExcStore : ExcStore :=
  { exceptions := [{ principle := some "C3" }], audit_log := [] }

/-- Two distinct open entries whose debt ids both reference incident INC_9. -/
def exEntryA : DebtEntry :=
  { debt_id := some "AD-20250101-INC_9", principle := some "C1"
    severity := some "medium", created_at := some "2025-01-01"
    debt_amount := some (1/50), mitigation_status := some "open" }

def exEntryB : DebtEntry := { exEntryA with debt_id := some "AD-20250102-INC_9" }

def exLedgerTwo : Ledger := { entries := [exEntryA, exEntryB] }

/-- An open medium entry aged 20 days at `nowWarn` (WARNING range). -/
def exWarnEntry : DebtEntry :=
  { debt_id := some "D1", principle := some "C1", severity := some "medium"
    created_at := some "2025-01-01", mitigation_status := some "open" }

def exLedgerWarn : Ledger := { entries := [exWarnEntry] }

def nowWarn : ℤ := toEpochMicros 2025 1 21 0 0 0 0

/-- The aging analysis of `exWarnEntry` at `nowWarn`. -/
def exWarnAging : DebtAgingEntry :=
  { debt_id := "D1", principle := "C1", severity := "medium"
    created_at := "2025-01-01", age_days := 20, slo_status := "warning"
    days_until_block := 70, owner := none, mitigation_status := "open" }

/-- An open critical entry aged 46 days at `nowCrit` (past the 45-day block
threshold). -/
def exCritEntry : DebtEntry :=
  { debt_id := some "D2", principle := some "C2", severity := some "critical"
    created_at := some "2025-01-01", mitigation_status := some "open" }

def exLedgerCrit : Ledger := { entries := [exCritEntry] }

def nowCrit : ℤ := toEpochMicros 2025 2 16 0 0 0 0

def exLedgerCritBlocked : Ledger := { entries := [setBlocked exCritEntry 46] }

/-- An accepted entry with risk-acceptance metadata, matching incident INC_7. -/
def exAccEntry : DebtEntry :=
  { debt_id := some "AD-20250101-INC_7", principle := some "C4"
    severity := some "high", created_at := some "2025-01-01"
    debt_amount := some (1/20), blocks_release := some false
    mitigation_status := some "accepted"
    risk_acceptance := some
      { approved_by := "alice", approved_at := "t0"
        expires := "2025-06-01", conditions := ["monitored"] } }

def exLedgerAcc : Ledger := { entries := [exAccEntry] }

/-- An open entry with an unparseable `created_at`. -/
def exBadTsEntry : DebtEntry :=
  { debt_id := some "D3", created_at := some "not-a-timestamp"
    mitigation_status := some "open" }

def exLedgerBadTs : Ledger := { entries := [exBadTsEntry] }

/-- The ledger produced by marking `exLedgerC1`'s entry mitigated. -/
def exLedgerC1Mit : Ledger := (mark_mitigated exLedgerC1 "INC_1" ["REG-1"] "mb" "t1").1

/-!
# Theorems

One theorem per claim (with witnesses and counterexamples as required),
preceded by the helper lemmas they share.
-/

/-- C5: `get_slo_status` picks the block threshold by severity, returns BLOCK
when `age_days ≥ block_threshold`, else ESCALATE when `age_days ≥
escalate_days`, else WARNING when `age_days ≥ warning_days`, else OK; the
returned `days_until_block` is `block_threshold - age_days` in the
non-blocked cases and `0` once blocked. -/
theorem C5_slo_status_spec (age : ℤ) (sev : String) (c : AgingConfig) :
    ((get_slo_status age sev c).1 = .block ↔ blockThreshold sev c ≤ age)
    ∧ ((get_slo_status age sev c).1 = .escalate ↔
        age < blockThreshold sev c ∧ c.escalate_days ≤ age)
    ∧ ((get_slo_status age sev c).1 = .warning ↔
        age < blockThreshold sev c ∧ age < c.escalate_days ∧ c.warning_days ≤ age)
    ∧ ((get_slo_status age sev c).1 = .ok ↔
        age < blockThreshold sev c ∧ age < c.escalate_days ∧ age < c.warning_days)
    ∧ (get_slo_status age sev c).2 =
        (if blockThreshold sev c ≤ age then 0 else blockThreshold sev c - age) := by
  unfold get_slo_status
  by_cases h1 : blockThreshold sev c ≤ age <;>
    by_cases h2 : c.escalate_days ≤ age <;>
    by_cases h3 : c.warning_days ≤ age <;>
    simp [ge_iff_le, h1, h2, h3] <;> omega

/-- If no verified mitigation passes, the extracted principle set is empty. -/
theorem get_mitigated_principles_eq_nil {ms : List VerifiedMitigation}
    (h : ∀ v ∈ ms, v.status ≠ some "pass") : get_mitigated_principles ms = [] := by
  unfold get_mitigated_principles pySetList
  have : ms.filter (fun v => v.status == some "pass") = [] := by
    apply List.filter_eq_nil_iff.mpr
    intro v hv
    simpa using h v hv
  simp [this]

/-- C8: a settlement run whose `verified_mitigations` contain no entry with
status `"pass"` returns the no-action result (not an error) and writes
nothing to either the debt ledger or the exception store. -/
theorem C8_no_pass_is_noop (replay : Replay) (debt : Ledger) (exc : ExcStore)
    (dry_run : Bool) (ts : String) (dW eW : Bool)
    (h : ∀ v ∈ replay.verified_mitigations, v.status ≠ some "pass") :
    settle_debt replay debt exc dry_run ts dW eW
      = (.noAction "No verified mitigations found in replay results", none, none) := by
  unfold settle_debt
  simp [get_mitigated_principles_eq_nil h]

/-- Witness for C8 at a replay whose only mitigation failed. -/
theorem C8_no_pass_is_noop_witness :
    settle_debt exReplayFail exLedgerC1 exExcStore false "t1" true true
      = (.noAction "No verified mitigations found in replay results", none, none) :=
  C8_no_pass_is_noop exReplayFail exLedgerC1 exExcStore false "t1" true true (by decide)

/-- Counterexample to C1: the settlement update (`update_debt_ledger`)
mitigates the only active entry but leaves `summary.total_active_debt` at its
pre-mutation value 0.05, while the sum of `debt_amount` over still-active
entries is 0 — the persisted summary total is stale after this mutation. -/
theorem C1_counterexample_settlement_stale :
    ((update_debt_ledger exLedgerC1 ["C3"] "INC_1" "RUN_1" "t1").1.summary.map
        Summary.total_active_debt = some (1/20))
    ∧ activeSum (update_debt_ledger exLedgerC1 ["C3"] "INC_1" "RUN_1" "t1").1.entries = 0 :=
  ⟨rfl, rfl⟩

/-- Counterexample to C4: the aging age computation raises on an unparseable
timestamp instead of falling back to age 0 — `calculate_age_days` propagates
the `ValueError` (modelled as `none`), and a sweep (`analyze_debt_aging`)
over a ledger containing one such record crashes. -/
theorem C4_counterexample_aging_raises :
    calculate_age_days "not-a-timestamp" 0 = none
    ∧ analyze_debt_aging exLedgerBadTs {} 0 "1970-01-01T00:00:00" = none := by
  constructor <;> decide

theorem recalculate_summary_entries (l : Ledger) (ts : String) :
    (recalculate_summary l ts).entries = l.entries := rfl

theorem recalculate_summary_consistent (l : Ledger) (ts : String) :
    SummaryConsistent (recalculate_summary l ts) ts := rfl

/-- Amended C1: the three `DebtClearer` mutations (create, mark mitigated,
mark accepted) recompute and persist the summary in the same mutation, with
`total_active_debt = round3(Σ debt_amount over non-terminal entries)` (non-
numeric amounts defaulting to 0.05); the settlement update
(`update_debt_ledger`) recomputes only the entry counts and `last_updated`,
leaving `total_active_debt` unchanged (stale). -/
theorem C1_summary_recompute :
    (∀ l inc ev mb ts l' e, mark_mitigated l inc ev mb ts = (l', some e) →
        SummaryConsistent l' ts)
    ∧ (∀ l did ab exp conds ts l' e, mark_accepted l did ab exp conds ts = (l', some e) →
        SummaryConsistent l' ts)
    ∧ (∀ l inc p mg sev rel ev ds ts,
        SummaryConsistent (create_debt_from_incident l inc p mg sev rel ev ds ts).1 ts)
    ∧ (∀ l ms inc run ts,
        ((update_debt_ledger l ms inc run ts).1.summary).map Summary.total_active_debt
          = l.summary.map Summary.total_active_debt) := by
  refine ⟨?_, ?_, ?_, ?_⟩
  · intro l inc ev mb ts l' e h
    simp only [mark_mitigated] at h
    cases hu : (markFirst inc ev mb ts l.entries).2 with
    | none => rw [hu] at h; exact absurd (congrArg Prod.snd h) (by simp)
    | some x =>
      rw [hu] at h
      have hl : l' = recalculate_summary { l with entries := (markFirst inc ev mb ts l.entries).1 } ts :=
        (congrArg Prod.fst h).symm
      rw [hl]
      exact recalculate_summary_consistent _ ts
  · intro l did ab exp conds ts l' e h
    simp only [mark_accepted] at h
    cases hu : (acceptFirst did ab ts exp conds l.entries).2 with
    | none => rw [hu] at h; exact absurd (congrArg Prod.snd h) (by simp)
    | some x =>
      rw [hu] at h
      have hl : l' = recalculate_summary { l with entries := (acceptFirst did ab ts exp conds l.entries).1 } ts :=
        (congrArg Prod.fst h).symm
      rw [hl]
      exact recalculate_summary_consistent _ ts
  · intro l inc p mg sev rel ev ds ts
    exact recalculate_summary_consistent _ ts
  · intro l ms inc run ts
    unfold update_debt_ledger
    cases l.summary <;> simp

/-- Witness for C1 at concrete mutations: a successful `mark_mitigated` and a
`create_debt_from_incident`, both leaving a freshly consistent summary. -/
theorem C1_summary_recompute_witness :
    SummaryConsistent exLedgerC1Mit "t1"
    ∧ SummaryConsistent
        (create_debt_from_incident ({} : Ledger) "INC_2" "C5" "gap2" "critical" "R1"
          ["REG-9"] "20250101" "t2").1 "t2" :=
  ⟨C1_summary_recompute.1 exLedgerC1 "INC_1" ["REG-1"] "mb" "t1" exLedgerC1Mit
      (mitigateEntry exEntryOpenC3 ["REG-1"] "mb" "t1") rfl,
   C1_summary_recompute.2.2.1 ({} : Ledger) "INC_2" "C5" "gap2" "critical" "R1"
      ["REG-9"] "20250101" "t2"⟩

theorem EntryInv_mitigateEntry (e : DebtEntry) (ev : List String) (mb ts : String) :
    EntryInv (mitigateEntry e ev mb ts) := by
  intro _
  simp [mitigateEntry]

theorem EntryInv_acceptEntry (e : DebtEntry) (ab ts exp : String) (conds : List String) :
    EntryInv (acceptEntry e ab ts exp conds) := by
  intro _
  simp [acceptEntry]

theorem EntryInv_settleEntry (e : DebtEntry) (inc run ts : String) :
    EntryInv (settleEntry e inc run ts) := by
  intro _
  simp [settleEntry]

theorem EntryInv_setBlocked {e : DebtEntry} (h : isTerminalAging e = false) (age : ℤ) :
    EntryInv (setBlocked e age) := by
  intro hterm
  exfalso
  have : (setBlocked e age).mitigation_status = e.mitigation_status := rfl
  rw [this] at hterm
  unfold isTerminalAging at h
  rcases hterm with h1 | h1 <;> rw [h1] at h <;> simp [Option.getD] at h

theorem markFirst_mem {inc : String} {ev : List String} {mb ts : String} :
    ∀ {es : List DebtEntry} {x : DebtEntry}, x ∈ (markFirst inc ev mb ts es).1 →
      x ∈ es ∨ ∃ e ∈ es, x = mitigateEntry e ev mb ts := by
  intro es
  induction es with
  | nil => intro x hx; simp [markFirst] at hx
  | cons e rest ih =>
    intro x hx
    by_cases he : mmEligible inc e = true
    · simp [markFirst, he] at hx
      rcases hx with hx | hx
      · exact Or.inr ⟨e, List.mem_cons_self e rest, hx⟩
      · exact Or.inl (List.mem_cons_of_mem e hx)
    · simp [markFirst, he] at hx
      rcases hx with hx | hx
      · exact Or.inl (by simp [hx])
      · rcases ih hx with h | ⟨e0, he0, hxe⟩
        · exact Or.inl (List.mem_cons_of_mem e h)
        · exact Or.inr ⟨e0, List.mem_cons_of_mem e he0, hxe⟩

theorem acceptFirst_mem {did ab ts exp : String} {conds : List String} :
    ∀ {es : List DebtEntry} {x : DebtEntry}, x ∈ (acceptFirst did ab ts exp conds es).1 →
      x ∈ es ∨ ∃ e ∈ es, x = acceptEntry e ab ts exp conds := by
  intro es
  induction es with
  | nil => intro x hx; simp [acceptFirst] at hx
  | cons e rest ih =>
    intro x hx
    by_cases he : (e.debt_id == some did) = true
    · simp [acceptFirst, he] at hx
      rcases hx with hx | hx
      · exact Or.inr ⟨e, List.mem_cons_self e rest, hx⟩
      · exact Or.inl (List.mem_cons_of_mem e hx)
    · simp [acceptFirst, he] at hx
      rcases hx with hx | hx
      · exact Or.inl (by simp [hx])
      · rcases ih hx with h | ⟨e0, he0, hxe⟩
        · exact Or.inl (List.mem_cons_of_mem e h)
        · exact Or.inr ⟨e0, List.mem_cons_of_mem e he0, hxe⟩

theorem update_debt_ledger_entries (l : Ledger) (ms : List String) (inc run ts : String) :
    (update_debt_ledger l ms inc run ts).1.entries
      = l.entries.map (fun e => if settleEligible ms e then settleEntry e inc run ts else e) := by
  unfold update_debt_ledger
  cases l.summary <;> rfl

theorem enforceEntries_mem {c : AgingConfig} {now : ℤ} {ns : String} :
    ∀ {es r : List DebtEntry} {n : Nat}, enforceEntries c now ns es = some (r, n) →
      ∀ x ∈ r, x ∈ es ∨ ∃ e ∈ es, isTerminalAging e = false ∧ ∃ age, x = setBlocked e age := by
  intro es
  induction es with
  | nil =>
    intro r n h x hx
    simp only [enforceEntries] at h
    injection h with h'
    injection h' with h1 h2
    rw [← h1] at hx
    simp at hx
  | cons e rest ih =>
    intro r n h x hx
    by_cases hterm : isTerminalAging e = true
    · simp only [enforceEntries, hterm, if_true] at h
      rcases Option.map_eq_some'.mp h with ⟨⟨r0, n0⟩, hrec, heq⟩
      have hr : e :: r0 = r := congrArg Prod.fst heq
      rw [← hr] at hx
      rcases List.mem_cons.mp hx with hx | hx
      · exact Or.inl (by simp [hx])
      · rcases ih hrec x hx with h1 | ⟨e0, he0, h2⟩
        · exact Or.inl (List.mem_cons_of_mem e h1)
        · exact Or.inr ⟨e0, List.mem_cons_of_mem e he0, h2⟩
    · rw [Bool.not_eq_true] at hterm
      cases hage : calculate_age_days (e.created_at.getD ns) now with
      | none =>
        simp only [enforceEntries, hterm, hage, Bool.false_eq_true, if_false] at h
        exact absurd h (by simp)
      | some age =>
        by_cases hcond : ((get_slo_status age (e.severity.getD "medium") c).1 == SLOStatus.block
            && !blocksTruthy e) = true
        · simp only [enforceEntries, hterm, hage, hcond, Bool.false_eq_true, if_false,
            if_true] at h
          rcases Option.map_eq_some'.mp h with ⟨⟨r0, n0⟩, hrec, heq⟩
          have hr : setBlocked e age :: r0 = r := congrArg Prod.fst heq
          rw [← hr] at hx
          rcases List.mem_cons.mp hx with hx | hx
          · exact Or.inr ⟨e, List.mem_cons_self e rest, hterm, age, hx⟩
          · rcases ih hrec x hx with h1 | ⟨e0, he0, h2⟩
            · exact Or.inl (List.mem_cons_of_mem e h1)
            · exact Or.inr ⟨e0, List.mem_cons_of_mem e he0, h2⟩
        · rw [Bool.not_eq_true] at hcond
          simp only [enforceEntries, hterm, hage, hcond, Bool.false_eq_true, if_false] at h
          rcases Option.map_eq_some'.mp h with ⟨⟨r0, n0⟩, hrec, heq⟩
          have hr : e :: r0 = r := congrArg Prod.fst heq
          rw [← hr] at hx
          rcases List.mem_cons.mp hx with hx | hx
          · exact Or.inl (by simp [hx])
          · rcases ih hrec x hx with h1 | ⟨e0, he0, h2⟩
            · exact Or.inl (List.mem_cons_of_mem e h1)
            · exact Or.inr ⟨e0, List.mem_cons_of_mem e he0, h2⟩

/-- C3: every mutation (`mark_mitigated`, `mark_accepted`, the settlement
update, `enforce_aging_blocks`) preserves the invariant that an entry whose
`mitigation_status` is `mitigated` or `accepted` has a non-truthy
`blocks_release`; the mutated entries themselves always leave it `False`. -/
theorem C3_terminal_not_blocking (l : Ledger) (hInv : LedgerInv l) :
    (∀ inc ev mb ts, LedgerInv (mark_mitigated l inc ev mb ts).1)
    ∧ (∀ did ab exp conds ts, LedgerInv (mark_accepted l did ab exp conds ts).1)
    ∧ (∀ ms inc run ts, LedgerInv (update_debt_ledger l ms inc run ts).1)
    ∧ (∀ c now nowStr l' n,
        enforce_aging_blocks l c now nowStr = some (l', n) → LedgerInv l') := by
  refine ⟨?_, ?_, ?_, ?_⟩
  · intro inc ev mb ts x hx
    simp only [mark_mitigated] at hx
    cases hu : (markFirst inc ev mb ts l.entries).2 with
    | none => rw [hu] at hx; exact hInv x hx
    | some y =>
      rw [hu] at hx
      rw [recalculate_summary_entries] at hx
      rcases markFirst_mem hx with h | ⟨e0, _, hxe⟩
      · exact hInv x h
      · rw [hxe]; exact EntryInv_mitigateEntry e0 ev mb ts
  · intro did ab exp conds ts x hx
    simp only [mark_accepted] at hx
    cases hu : (acceptFirst did ab ts exp conds l.entries).2 with
    | none => rw [hu] at hx; exact hInv x hx
    | some y =>
      rw [hu] at hx
      rw [recalculate_summary_entries] at hx
      rcases acceptFirst_mem hx with h | ⟨e0, _, hxe⟩
      · exact hInv x h
      · rw [hxe]; exact EntryInv_acceptEntry e0 ab ts exp conds
  · intro ms inc run ts x hx
    rw [update_debt_ledger_entries] at hx
    rcases List.mem_map.mp hx with ⟨e0, he0, hxe⟩
    by_cases hel : settleEligible ms e0 = true
    · rw [← hxe]; simp only [hel, if_true]; exact EntryInv_settleEntry e0 inc run ts
    · rw [← hxe]; simp only [hel, if_false, Bool.false_eq_true]
      simpa using hInv e0 he0
  · intro c now nowStr l' n h x hx
    unfold enforce_aging_blocks at h
    rcases Option.map_eq_some'.mp h with ⟨⟨r, m⟩, hrec, heq⟩
    have hl : ({ entries := r, summary := l.summary } : Ledger) = l' :=
      congrArg Prod.fst heq
    have hent : l'.entries = r := by rw [← hl]
    rw [hent] at hx
    rcases enforceEntries_mem hrec x hx with h1 | ⟨e0, _, hterm, age, hxe⟩
    · exact hInv x h1
    · rw [hxe]; exact EntryInv_setBlocked hterm age

/-- Witness for C3: the settlement update on a concrete well-formed ledger
preserves the invariant. -/
theorem C3_terminal_not_blocking_witness :
    LedgerInv (update_debt_ledger exLedgerC1 ["C3"] "INC_1" "RUN_1" "t1").1 :=
  (C3_terminal_not_blocking exLedgerC1 (by decide)).2.2.1 ["C3"] "INC_1" "RUN_1" "t1"

/-- Amended C2: for a settlement run with a non-empty passing set and
`dry_run = False`, a success result is returned only when both writes took
effect; if the exception-store write fails after the ledger write, the
ledger commit stands, the exception store is untouched, and the underlying
write exception propagates (the operation returns no result, and in
particular no explicit partial-failure report distinguishing which store
committed); if the ledger write fails, nothing commits. -/
theorem C2_settlement_failure_modes (replay : Replay) (debt : Ledger) (exc : ExcStore)
    (ts : String) (dW eW : Bool)
    (hm : get_mitigated_principles replay.verified_mitigations ≠ []) :
    (∀ r, (settle_debt replay debt exc false ts dW eW).1 = .success r →
        dW = true ∧ eW = true
        ∧ (settle_debt replay debt exc false ts dW eW).2.1.isSome = true
        ∧ (settle_debt replay debt exc false ts dW eW).2.2.isSome = true)
    ∧ (dW = true → eW = false →
        settle_debt replay debt exc false ts dW eW
          = (.raised .excStore,
             some (update_debt_ledger debt (get_mitigated_principles replay.verified_mitigations)
               (replay.incident_id.getD "unknown") (replay.verification_run_id.getD "unknown") ts).1,
             none))
    ∧ (dW = false →
        settle_debt replay debt exc false ts dW eW = (.raised .debtStore, none, none)) := by
  have hne : (get_mitigated_principles replay.verified_mitigations).isEmpty = false := by
    cases hgm : get_mitigated_principles replay.verified_mitigations with
    | nil => exact absurd hgm hm
    | cons a l => rfl
  cases dW <;> cases eW <;>
    simp [settle_debt, hne]

/-- Witness for C2 at a concrete run whose exception-store write fails after
the ledger write: the outcome is the propagated exception, the new ledger is
committed, the exception store is not. -/
theorem C2_settlement_failure_modes_witness :
    settle_debt exReplayPass exLedgerC1 exExcStore false "t1" true false
      = (.raised .excStore,
         some (update_debt_ledger exLedgerC1
           (get_mitigated_principles exReplayPass.verified_mitigations)
           "INC_1" "RUN_1" "t1").1,
         none) :=
  (C2_settlement_failure_modes exReplayPass exLedgerC1 exExcStore "t1" true false
    (by decide)).2.1 rfl rfl

/-- Counterexample to C2: at a concrete settlement run with a passing
principle where the exception-store write fails after the ledger write, the
two stores diverge (ledger committed, exception store not) and the operation
neither commits both nor returns any explicit partial-failure report — it
propagates the raw write exception. -/
theorem C2_counterexample_partial_commit :
    ¬ bothOrReported (settle_debt exReplayPass exLedgerC1 exExcStore false "t1" true false)
    ∧ (settle_debt exReplayPass exLedgerC1 exExcStore false "t1" true false).1
        = SettleOutcome.raised StoreId.excStore
    ∧ (settle_debt exReplayPass exLedgerC1 exExcStore false "t1" true false).2.1
        = some (update_debt_ledger exLedgerC1 ["C3"] "INC_1" "RUN_1" "t1").1
    ∧ (settle_debt exReplayPass exLedgerC1 exExcStore false "t1" true false).2.2 = none := by
  refine ⟨?_, rfl, rfl, rfl⟩
  intro hclaim
  rcases hclaim with ⟨h1, h2⟩ | h3
  · exact absurd h2 (by decide)
  · exact absurd h3 (by decide)

/-- Amended C4: the decay relevance computation never raises on a malformed
reference timestamp — it falls back to age 0 (maximal relevance), so
`compute_relevance` equals its age-0 value; the aging age computation
(`parse_timestamp` / `calculate_age_days`), by contrast, raises on an
unparseable `created_at` (modelled by `none`) instead of falling back. -/
theorem C4_malformed_timestamps :
    (∀ (halfPow : ℚ → ℚ) (halfLife : ℚ) (t : RegressionTest) (now : ℤ),
        fromisoformat (replaceZ (referenceDate t)) = none →
        daysElapsedOf t now = 0
        ∧ compute_relevance halfPow halfLife t now
            = min (halfPow 0 * severityMult t.severity * sourceMult t.source
                + triggerBonus t.trigger_count) 1)
    ∧ (∀ (ts : String) (now : ℤ), parse_timestamp ts = none →
        calculate_age_days ts now = none) := by
  constructor
  · intro halfPow halfLife t now h
    have hd : daysElapsedOf t now = 0 := by
      unfold daysElapsedOf
      rw [h]
    refine ⟨hd, ?_⟩
    unfold compute_relevance
    rw [hd]
    norm_num
  · intro ts now h
    unfold calculate_age_days
    rw [h]
    rfl

/-- Witness for C4: a malformed timestamp makes the decay age fall back to 0
while the aging computation fails. -/
theorem C4_malformed_timestamps_witness :
    daysElapsedOf { test_id := "t", created_at := "garbage", source := "incident" } 0 = 0
    ∧ calculate_age_days "garbage" 0 = none :=
  ⟨(C4_malformed_timestamps.1 (fun _ => 1) 90
      { test_id := "t", created_at := "garbage", source := "incident" } 0 (by decide)).1,
   C4_malformed_timestamps.2 "garbage" 0 (by decide)⟩

theorem setBlocked_mitigation_status (e : DebtEntry) (age : ℤ) :
    (setBlocked e age).mitigation_status = e.mitigation_status := rfl

theorem setBlocked_created_at (e : DebtEntry) (age : ℤ) :
    (setBlocked e age).created_at = e.created_at := rfl

theorem setBlocked_severity (e : DebtEntry) (age : ℤ) :
    (setBlocked e age).severity = e.severity := rfl

theorem isTerminalAging_setBlocked (e : DebtEntry) (age : ℤ) :
    isTerminalAging (setBlocked e age) = isTerminalAging e := rfl

theorem blocksTruthy_setBlocked (e : DebtEntry) (age : ℤ) :
    blocksTruthy (setBlocked e age) = true := rfl

theorem enforceEntries_eq {c : AgingConfig} {now : ℤ} {ns : String} :
    ∀ {es r : List DebtEntry} {n : Nat}, enforceEntries c now ns es = some (r, n) →
      r = es.map (enfTransform c now ns) ∧ n = es.countP (enfEligible c now ns) := by
  intro es
  induction es with
  | nil =>
    intro r n h
    simp only [enforceEntries] at h
    injection h with h'
    injection h' with h1 h2
    exact ⟨h1.symm, h2.symm⟩
  | cons e rest ih =>
    intro r n h
    by_cases hterm : isTerminalAging e = true
    · simp only [enforceEntries, hterm, if_true] at h
      rcases Option.map_eq_some'.mp h with ⟨⟨r0, n0⟩, hrec, heq⟩
      have hr : e :: r0 = r := congrArg Prod.fst heq
      have hn : n0 = n := congrArg Prod.snd heq
      obtain ⟨ih1, ih2⟩ := ih hrec
      constructor
      · rw [← hr, List.map_cons, ih1]
        congr 1
        simp [enfTransform, hterm]
      · rw [← hn, List.countP_cons, ih2]
        simp [enfEligible, hterm]
    · rw [Bool.not_eq_true] at hterm
      cases hage : calculate_age_days (e.created_at.getD ns) now with
      | none =>
        simp only [enforceEntries, hterm, hage, Bool.false_eq_true, if_false] at h
        exact absurd h (by simp)
      | some age =>
        by_cases hcond : ((get_slo_status age (e.severity.getD "medium") c).1 == SLOStatus.block
            && !blocksTruthy e) = true
        · simp only [enforceEntries, hterm, hage, hcond, Bool.false_eq_true, if_false,
            if_true] at h
          rcases Option.map_eq_some'.mp h with ⟨⟨r0, n0⟩, hrec, heq⟩
          have hr : setBlocked e age :: r0 = r := congrArg Prod.fst heq
          have hn : n0 + 1 = n := congrArg Prod.snd heq
          obtain ⟨ih1, ih2⟩ := ih hrec
          constructor
          · rw [← hr, List.map_cons, ih1]
            congr 1
            simp [enfTransform, hterm, hage, hcond]
          · rw [← hn, List.countP_cons, ih2]
            simp [enfEligible, hterm, hage, hcond]
        · rw [Bool.not_eq_true] at hcond
          simp only [enforceEntries, hterm, hage, hcond, Bool.false_eq_true, if_false] at h
          rcases Option.map_eq_some'.mp h with ⟨⟨r0, n0⟩, hrec, heq⟩
          have hr : e :: r0 = r := congrArg Prod.fst heq
          have hn : n0 = n := congrArg Prod.snd heq
          obtain ⟨ih1, ih2⟩ := ih hrec
          constructor
          · rw [← hr, List.map_cons, ih1]
            congr 1
            simp [enfTransform, hterm, hage, hcond]
          · rw [← hn, List.countP_cons, ih2]
            simp [enfEligible, hterm, hage, hcond]

theorem enforceEntries_idem {c : AgingConfig} {now : ℤ} {ns : String} :
    ∀ {es r : List DebtEntry} {n : Nat}, enforceEntries c now ns es = some (r, n) →
      enforceEntries c now ns r = some (r, 0) := by
  intro es
  induction es with
  | nil =>
    intro r n h
    simp only [enforceEntries] at h
    injection h with h'
    injection h' with h1 h2
    rw [← h1]
    rfl
  | cons e rest ih =>
    intro r n h
    by_cases hterm : isTerminalAging e = true
    · simp only [enforceEntries, hterm, if_true] at h
      rcases Option.map_eq_some'.mp h with ⟨⟨r0, n0⟩, hrec, heq⟩
      have hr : e :: r0 = r := congrArg Prod.fst heq
      rw [← hr]
      simp only [enforceEntries, hterm, if_true, ih hrec, Option.map_some']
    · rw [Bool.not_eq_true] at hterm
      cases hage : calculate_age_days (e.created_at.getD ns) now with
      | none =>
        simp only [enforceEntries, hterm, hage, Bool.false_eq_true, if_false] at h
        exact absurd h (by simp)
      | some age =>
        by_cases hcond : ((get_slo_status age (e.severity.getD "medium") c).1 == SLOStatus.block
            && !blocksTruthy e) = true
        · simp only [enforceEntries, hterm, hage, hcond, Bool.false_eq_true, if_false,
            if_true] at h
          rcases Option.map_eq_some'.mp h with ⟨⟨r0, n0⟩, hrec, heq⟩
          have hr : setBlocked e age :: r0 = r := congrArg Prod.fst heq
          rw [← hr]
          have hterm' : isTerminalAging (setBlocked e age) = false := by
            rw [isTerminalAging_setBlocked]; exact hterm
          have hage' : calculate_age_days ((setBlocked e age).created_at.getD ns) now
              = some age := by
            rw [setBlocked_created_at]; exact hage
          have hcond' : ((get_slo_status age ((setBlocked e age).severity.getD "medium") c).1
              == SLOStatus.block && !blocksTruthy (setBlocked e age)) = false := by
            rw [setBlocked_severity, blocksTruthy_setBlocked]
            simp
          simp only [enforceEntries, hterm', Bool.false_eq_true, if_false, hage', hcond',
            ih hrec, Option.map_some']
        · rw [Bool.not_eq_true] at hcond
          simp only [enforceEntries, hterm, hage, hcond, Bool.false_eq_true, if_false] at h
          rcases Option.map_eq_some'.mp h with ⟨⟨r0, n0⟩, hrec, heq⟩
          have hr : e :: r0 = r := congrArg Prod.fst heq
          rw [← hr]
          simp only [enforceEntries, hterm, Bool.false_eq_true, if_false, hage, hcond,
            ih hrec, Option.map_some']

/-- C6: a successful `enforce_aging_blocks` run sets `blocks_release` and a
`block_reason` exactly on the non-terminal entries whose SLO status is BLOCK
and whose `blocks_release` is not already set (`enfTransform`/`enfEligible`),
returns the count of entries so changed, and running it again immediately
changes nothing and returns 0. -/
theorem C6_enforce_idempotent (l : Ledger) (c : AgingConfig) (now : ℤ) (nowStr : String)
    (l' : Ledger) (n : Nat)
    (h : enforce_aging_blocks l c now nowStr = some (l', n)) :
    l'.entries = l.entries.map (enfTransform c now nowStr)
    ∧ n = l.entries.countP (enfEligible c now nowStr)
    ∧ enforce_aging_blocks l' c now nowStr = some (l', 0) := by
  unfold enforce_aging_blocks at h
  rcases Option.map_eq_some'.mp h with ⟨⟨r, m⟩, hrec, heq⟩
  have hl : ({ entries := r, summary := l.summary } : Ledger) = l' := congrArg Prod.fst heq
  have hn : m = n := congrArg Prod.snd heq
  have hent : l'.entries = r := by rw [← hl]
  have hsum : l'.summary = l.summary := by rw [← hl]
  obtain ⟨hr1, hr2⟩ := enforceEntries_eq hrec
  refine ⟨by rw [hent, hr1], by rw [← hn, hr2], ?_⟩
  unfold enforce_aging_blocks
  rw [hent, enforceEntries_idem hrec]
  simp only [Option.map_some']
  have : ({ entries := r, summary := l'.summary } : Ledger) = l' := by rw [hsum]; exact hl
  rw [this]

/-- Witness for C6: enforcing on a 46-day-old critical entry blocks it once;
re-running on the result changes nothing and returns 0. -/
theorem C6_enforce_idempotent_witness :
    enforce_aging_blocks exLedgerCritBlocked {} nowCrit "2025-02-16T00:00:00"
      = some (exLedgerCritBlocked, 0) :=
  (C6_enforce_idempotent exLedgerCrit {} nowCrit "2025-02-16T00:00:00"
    exLedgerCritBlocked 1 (by decide)).2.2

theorem mmEligible_mitigateEntry (inc : String) (e : DebtEntry) (ev : List String)
    (mb ts : String) : mmEligible inc (mitigateEntry e ev mb ts) = false := by
  simp [mmEligible, mitigateEntry]

theorem mitigateEntry_tests_nodup (e : DebtEntry) (ev : List String) (mb ts : String) :
    (mitigateEntry e ev mb ts).evidence.tests.Nodup := by
  cases h : e.evidence <;>
    simp [mitigateEntry, updateEvidence, h, Evidence.tests, pySetList, List.nodup_dedup]

theorem markFirst_all_ineligible {inc : String} {ev : List String} {mb ts : String} :
    ∀ {es : List DebtEntry}, (∀ e ∈ es, mmEligible inc e = false) →
      markFirst inc ev mb ts es = (es, none) := by
  intro es
  induction es with
  | nil => intro _; rfl
  | cons e rest ih =>
    intro h
    have hhead : mmEligible inc e = false := h e (List.mem_cons_self e rest)
    have htail := ih (fun x hx => h x (List.mem_cons_of_mem e hx))
    simp [markFirst, hhead, htail]

theorem markFirst_snd_none_all {inc : String} {ev : List String} {mb ts : String} :
    ∀ {es : List DebtEntry}, (markFirst inc ev mb ts es).2 = none →
      ∀ e ∈ es, mmEligible inc e = false := by
  intro es
  induction es with
  | nil => intro _ e he; simp at he
  | cons e rest ih =>
    intro h x hx
    by_cases hhead : mmEligible inc e = true
    · simp [markFirst, hhead] at h
    · rw [Bool.not_eq_true] at hhead
      simp only [markFirst, hhead, Bool.false_eq_true, if_false] at h
      rcases List.mem_cons.mp hx with hx | hx
      · rw [hx]; exact hhead
      · exact ih h x hx

theorem markFirst_fst_ineligible {inc : String} {ev : List String} {mb ts : String} :
    ∀ {es : List DebtEntry}, es.countP (mmEligible inc) ≤ 1 →
      ∀ e ∈ (markFirst inc ev mb ts es).1, mmEligible inc e = false := by
  intro es
  induction es with
  | nil => intro _ e he; simp [markFirst] at he
  | cons e rest ih =>
    intro h x hx
    by_cases hhead : mmEligible inc e = true
    · have hcnt : rest.countP (mmEligible inc) = 0 := by
        rw [List.countP_cons, if_pos hhead] at h
        omega
      have hrest : ∀ a ∈ rest, mmEligible inc a = false := by
        intro a ha
        have := List.countP_eq_zero.mp hcnt a ha
        simpa using this
      simp only [markFirst, hhead, if_true] at hx
      rcases List.mem_cons.mp hx with hx | hx
      · rw [hx]; exact mmEligible_mitigateEntry inc e ev mb ts
      · exact hrest x hx
    · rw [Bool.not_eq_true] at hhead
      have h' : rest.countP (mmEligible inc) ≤ 1 := by
        rw [List.countP_cons, if_neg (by simp [hhead])] at h
        omega
      simp only [markFirst, hhead, Bool.false_eq_true, if_false] at hx
      rcases List.mem_cons.mp hx with hx | hx
      · rw [hx]; exact hhead
      · exact ih h' x hx

theorem markFirst_snd_some {inc : String} {ev : List String} {mb ts : String} :
    ∀ {es : List DebtEntry} {x : DebtEntry}, (markFirst inc ev mb ts es).2 = some x →
      ∃ e0, x = mitigateEntry e0 ev mb ts := by
  intro es
  induction es with
  | nil => intro x h; simp [markFirst] at h
  | cons e rest ih =>
    intro x h
    by_cases hhead : mmEligible inc e = true
    · simp only [markFirst, hhead, if_true] at h
      exact ⟨e, (Option.some.inj h).symm⟩
    · rw [Bool.not_eq_true] at hhead
      simp only [markFirst, hhead, Bool.false_eq_true, if_false] at h
      exact ih h

/-- Amended C7: `mark_mitigated` is idempotent on any ledger in which at most
one entry matches the incident id and is not yet mitigated — the second call
finds no eligible entry, changes nothing and returns the empty result — and
the evidence union of the updated entry holds no duplicate test ids.  (With
two or more matching non-mitigated entries the second call mitigates the
next match, so the general claim fails; see the counterexample.) -/
theorem C7_mark_mitigated_idempotent (l : Ledger) (inc : String) (ev : List String)
    (mb t1 t2 : String) (h : l.entries.countP (mmEligible inc) ≤ 1) :
    (mark_mitigated (mark_mitigated l inc ev mb t1).1 inc ev mb t2).1
      = (mark_mitigated l inc ev mb t1).1
    ∧ (mark_mitigated (mark_mitigated l inc ev mb t1).1 inc ev mb t2).2 = none
    ∧ (∀ e, (mark_mitigated l inc ev mb t1).2 = some e → e.evidence.tests.Nodup) := by
  cases hu : (markFirst inc ev mb t1 l.entries).2 with
  | none =>
    have hall : ∀ e ∈ l.entries, mmEligible inc e = false := markFirst_snd_none_all hu
    have hfirst : mark_mitigated l inc ev mb t1 = (l, none) := by
      simp only [mark_mitigated, hu]
    have hfst : (mark_mitigated l inc ev mb t1).1 = l := by rw [hfirst]
    have h3 : markFirst inc ev mb t2 l.entries = (l.entries, none) :=
      markFirst_all_ineligible hall
    have hsecond : mark_mitigated l inc ev mb t2 = (l, none) := by
      simp only [mark_mitigated, h3]
    refine ⟨?_, ?_, ?_⟩
    · rw [hfst]
      rw [hsecond]
    · rw [hfst]
      rw [hsecond]
    · intro e he
      have hsnd : (mark_mitigated l inc ev mb t1).2 = none := by rw [hfirst]
      rw [hsnd] at he
      simp at he
  | some x =>
    have hfirst : mark_mitigated l inc ev mb t1
        = (recalculate_summary { l with entries := (markFirst inc ev mb t1 l.entries).1 } t1,
           some x) := by
      simp only [mark_mitigated, hu]
    have hfst : (mark_mitigated l inc ev mb t1).1
        = recalculate_summary { l with entries := (markFirst inc ev mb t1 l.entries).1 } t1 := by
      rw [hfirst]
    have hall : ∀ e ∈ (markFirst inc ev mb t1 l.entries).1, mmEligible inc e = false :=
      markFirst_fst_ineligible h
    have hentries :
        (recalculate_summary { l with entries := (markFirst inc ev mb t1 l.entries).1 } t1).entries
          = (markFirst inc ev mb t1 l.entries).1 :=
      recalculate_summary_entries _ _
    have h3 : markFirst inc ev mb t2
        (recalculate_summary { l with entries := (markFirst inc ev mb t1 l.entries).1 } t1).entries
        = ((recalculate_summary { l with entries := (markFirst inc ev mb t1 l.entries).1 } t1).entries,
           none) := by
      rw [hentries]
      exact markFirst_all_ineligible hall
    have hsecond : mark_mitigated
        (recalculate_summary { l with entries := (markFirst inc ev mb t1 l.entries).1 } t1)
        inc ev mb t2
        = (recalculate_summary { l with entries := (markFirst inc ev mb t1 l.entries).1 } t1,
           none) := by
      simp only [mark_mitigated, h3]
    refine ⟨?_, ?_, ?_⟩
    · rw [hfst]
      rw [hsecond]
    · rw [hfst]
      rw [hsecond]
    · intro e he
      have hsnd : (mark_mitigated l inc ev mb t1).2 = some x := by rw [hfirst]
      rw [hsnd] at he
      have hex : e = x := (Option.some.inj he).symm
      rcases markFirst_snd_some hu with ⟨e0, he0⟩
      rw [hex, he0]
      exact mitigateEntry_tests_nodup e0 ev mb t1

/-- Witness for C7 on a ledger with exactly one matching entry: the double
call equals the single call. -/
theorem C7_mark_mitigated_idempotent_witness :
    (mark_mitigated (mark_mitigated exLedgerC1 "INC_1" ["REG-1"] "mb" "t1").1
        "INC_1" ["REG-1"] "mb" "t2").1
      = (mark_mitigated exLedgerC1 "INC_1" ["REG-1"] "mb" "t1").1 :=
  (C7_mark_mitigated_idempotent exLedgerC1 "INC_1" ["REG-1"] "mb" "t1" "t2" (by decide)).1

/-- Counterexample to C7: on a ledger with two open entries both matching
incident INC_9, the first call mitigates only the first entry and the second
call mitigates the second one — calling `mark_mitigated` twice with the
same arguments does not equal calling it once. -/
theorem C7_counterexample_two_matches :
    ((mark_mitigated (mark_mitigated exLedgerTwo "INC_9" ["T1"] "mb" "t1").1
        "INC_9" ["T1"] "mb" "t1").1.entries.map DebtEntry.mitigation_status
      = [some "mitigated", some "mitigated"])
    ∧ ((mark_mitigated exLedgerTwo "INC_9" ["T1"] "mb" "t1").1.entries.map
        DebtEntry.mitigation_status = [some "mitigated", some "open"])
    ∧ (mark_mitigated (mark_mitigated exLedgerTwo "INC_9" ["T1"] "mb" "t1").1
        "INC_9" ["T1"] "mb" "t1").1
      ≠ (mark_mitigated exLedgerTwo "INC_9" ["T1"] "mb" "t1").1 := by
  have h1 : ((mark_mitigated (mark_mitigated exLedgerTwo "INC_9" ["T1"] "mb" "t1").1
      "INC_9" ["T1"] "mb" "t1").1.entries.map DebtEntry.mitigation_status
      = [some "mitigated", some "mitigated"]) := rfl
  have h2 : ((mark_mitigated exLedgerTwo "INC_9" ["T1"] "mb" "t1").1.entries.map
      DebtEntry.mitigation_status = [some "mitigated", some "open"]) := rfl
  refine ⟨h1, h2, fun hc => ?_⟩
  rw [congrArg (List.map DebtEntry.mitigation_status) (congrArg Ledger.entries hc)] at h1
  rw [h2] at h1
  exact absurd h1 (by decide)

theorem list_any_or {α : Type} (l : List α) (p q : α → Bool) :
    l.any (fun x => p x || q x) = (l.any p || l.any q) := by
  induction l with
  | nil => rfl
  | cons a t ih =>
    simp only [List.any_cons, ih]
    cases p a <;> cases q a <;> simp

/-- Amended C9: a successful aging-check run exits 2 iff some entry has SLO
status BLOCK, exits 1 iff no BLOCK but some ESCALATE is present, and exits 0
otherwise — in particular a run whose worst status is WARNING exits 0 (a
WARNING does not raise the exit code, contrary to the claim). -/
theorem C9_exit_codes (l : Ledger) (c : AgingConfig) (now : ℤ) (nowStr : String)
    (entries : List DebtAgingEntry) (code : Nat)
    (ha : analyze_debt_aging l c now nowStr = some entries)
    (hc : mainExitCode l c now nowStr = some code) :
    (code = 2 ↔ entries.any (fun e => e.slo_status == "block") = true)
    ∧ (code = 1 ↔ (entries.any (fun e => e.slo_status == "block") = false
        ∧ entries.any (fun e => e.slo_status == "escalate") = true))
    ∧ (code = 0 ↔ (entries.any (fun e => e.slo_status == "block") = false
        ∧ entries.any (fun e => e.slo_status == "escalate") = false)) := by
  unfold mainExitCode at hc
  rw [ha] at hc
  simp only [Option.map_some'] at hc
  have hcode := Option.some.inj hc
  by_cases hemp : entries.isEmpty = true
  · have hnil : entries = [] := by
      cases entries with
      | nil => rfl
      | cons a t => simp [List.isEmpty] at hemp
    subst hnil
    rw [if_pos hemp] at hcode
    subst hcode
    simp
  · rw [if_neg (by simp [hemp])] at hcode
    by_cases hb : entries.any (fun e => e.slo_status == "block") = true
    · rw [if_pos hb] at hcode
      subst hcode
      simp [hb]
    · rw [Bool.not_eq_true] at hb
      rw [if_neg (by simp [hb])] at hcode
      rw [list_any_or, hb, Bool.false_or] at hcode
      by_cases he : entries.any (fun e => e.slo_status == "escalate") = true
      · rw [if_pos he] at hcode
        subst hcode
        simp [hb, he]
      · rw [Bool.not_eq_true] at he
        rw [if_neg (by simp [he])] at hcode
        subst hcode
        simp [hb, he]

/-- Witness for C9 on a one-entry ledger whose entry is in the WARNING range:
the run analyzes it and exits 0. -/
theorem C9_exit_codes_witness :
    ((0 = 2) ↔ [exWarnAging].any (fun e => e.slo_status == "block") = true)
    ∧ ((0 = 1) ↔ ([exWarnAging].any (fun e => e.slo_status == "block") = false
        ∧ [exWarnAging].any (fun e => e.slo_status == "escalate") = true))
    ∧ ((0 = 0) ↔ ([exWarnAging].any (fun e => e.slo_status == "block") = false
        ∧ [exWarnAging].any (fun e => e.slo_status == "escalate") = false)) :=
  C9_exit_codes exLedgerWarn {} nowWarn "2025-01-21T00:00:00" [exWarnAging] 0
    (by decide) (by decide)

/-- Counterexample to C9: a ledger whose only entry has SLO status WARNING
(age 20 days, warning threshold 14, escalate threshold 30) makes the run
exit 0, not 1 — a WARN alone does not produce exit code 1. -/
theorem C9_counterexample_warning_exits_zero :
    mainExitCode exLedgerWarn {} nowWarn "2025-01-21T00:00:00" = some 0
    ∧ analyze_debt_aging exLedgerWarn {} nowWarn "2025-01-21T00:00:00" = some [exWarnAging]
    ∧ exWarnAging.slo_status = "warning" := by
  refine ⟨by decide, by decide, rfl⟩

theorem markFirst_snd_eq_find {inc : String} {ev : List String} {mb ts : String} :
    ∀ es : List DebtEntry, (markFirst inc ev mb ts es).2
      = (es.find? (mmEligible inc)).map (fun e => mitigateEntry e ev mb ts) := by
  intro es
  induction es with
  | nil => rfl
  | cons e rest ih =>
    by_cases hhead : mmEligible inc e = true
    · rw [List.find?_cons_of_pos _ hhead]
      simp only [markFirst, hhead, if_true, Option.map_some']
    · rw [List.find?_cons_of_neg _ (by simp [hhead])]
      rw [Bool.not_eq_true] at hhead
      simp only [markFirst, hhead, Bool.false_eq_true, if_false]
      exact ih

/-- C10 (implicit): `mark_mitigated` guards only against entries already
`mitigated` — if the first matching, non-mitigated entry is an `accepted`
one, it is silently re-transitioned: status overwritten to `mitigated`,
`mitigated_at`/`mitigated_by` stamped, `blocks_release` cleared, while the
risk-acceptance metadata is left in place. -/
theorem C10_accepted_retransitioned (l : Ledger) (inc : String) (ev : List String)
    (mb ts : String) (e0 : DebtEntry)
    (hfind : l.entries.find? (mmEligible inc) = some e0)
    (_hacc : e0.mitigation_status = some "accepted") :
    (mark_mitigated l inc ev mb ts).2 = some (mitigateEntry e0 ev mb ts)
    ∧ (mitigateEntry e0 ev mb ts).mitigation_status = some "mitigated"
    ∧ (mitigateEntry e0 ev mb ts).mitigated_at = some ts
    ∧ (mitigateEntry e0 ev mb ts).mitigated_by = some mb
    ∧ (mitigateEntry e0 ev mb ts).blocks_release = some false
    ∧ (mitigateEntry e0 ev mb ts).risk_acceptance = e0.risk_acceptance := by
  have hsnd := @markFirst_snd_eq_find inc ev mb ts l.entries
  rw [hfind] at hsnd
  simp only [Option.map_some'] at hsnd
  refine ⟨?_, rfl, rfl, rfl, rfl, rfl⟩
  simp only [mark_mitigated, hsnd]

/-- Witness for C10: the concrete accepted entry for INC_7 is re-transitioned
by an incident-id match, keeping its risk-acceptance metadata. -/
theorem C10_accepted_retransitioned_witness :
    (mark_mitigated exLedgerAcc "INC_7" ["R"] "mb" "t3").2
      = some (mitigateEntry exAccEntry ["R"] "mb" "t3")
    ∧ (mitigateEntry exAccEntry ["R"] "mb" "t3").risk_acceptance
      = exAccEntry.risk_acceptance :=
  ⟨(C10_accepted_retransitioned exLedgerAcc "INC_7" ["R"] "mb" "t3" exAccEntry rfl rfl).1,
   (C10_accepted_retransitioned exLedgerAcc "INC_7" ["R"] "mb" "t3" exAccEntry rfl rfl).2.2.2.2.2⟩

end AlignmentDebt
